import Mathlib

/-!
Verification development for the identity-provider (IdP) resource layer of a
declarative-infrastructure provider plugin. The Go sources embedded here are
okta/idp.go and okta/resource_social_idp.go: lifecycle handlers
(create, read, update, delete, exists), the activation-status reconciler, and
the pure builders that assemble nested API payloads from flat configuration.

Modelling conventions:
- An SDK call result is a pair of an optional HTTP response and an optional
  error string; a missing response models a network-level failure, exactly
  the (nil, err) pair the Go SDK returns in that case.
- Go control flow that dereferences a nil pointer is modelled by the
  Outcome.crash constructor (a Go runtime panic); normal returns are
  Outcome.ok and returned errors are Outcome.err.
- Helper functions of the repository that are not among the embedded source
  files (suppressErrorOn4xx-style helpers, set conversion) are modelled from
  the specification and marked as such in their doc comments.
-/

set_option autoImplicit false

namespace OktaIdp

/-- An HTTP response as the handlers observe it: only the status code is
inspected by the embedded code. -/
structure Response where
  statusCode : Nat
deriving DecidableEq, Repr

/-- Result of one SDK call: an optional HTTP response and an optional error.
resp = none models a network failure where the SDK returns a nil response
alongside a non-nil error. -/
structure SdkResult where
  resp : Option Response
  err : Option String
deriving DecidableEq, Repr

/-- Outcome of running a Go function: a normal return value, a returned
error, or a runtime panic (nil-pointer dereference). -/
inductive Outcome (α : Type) where
  | ok : α → Outcome α
  | err : String → Outcome α
  | crash : Outcome α
deriving DecidableEq, Repr

/-- Modelled from the spec: responseErr surfaces errors verbatim from the
SDK/HTTP layer; any non-2xx response is surfaced as an error to the host
framework. (The helper is part of the repository but outside the embedded
source files.) -/
def responseErr (resp : Option Response) (err : Option String) : Outcome Unit :=
  match err with
  | some e => Outcome.err e
  | none =>
    match resp with
    | some r =>
      if 200 ≤ r.statusCode ∧ r.statusCode < 300 then Outcome.ok ()
      else Outcome.err "non-2xx response"
    | none => Outcome.ok ()

/-- Modelled from the spec: suppressErrorOn404 treats a 404 response as
benign absence (returns nil) and propagates the error verbatim otherwise.
(The helper is part of the repository but outside the embedded source
files.) -/
def suppressErrorOn404 (resp : Option Response) (err : String) : Outcome Unit :=
  match resp with
  | some r => if r.statusCode = 404 then Outcome.ok () else Outcome.err err
  | none => Outcome.err err

/-- resourceDeleteAnyIdp from okta/idp.go. If the resource is active it first
calls DeactivateIdentityProvider: on an error it reads resp.StatusCode (a
nil-pointer dereference, hence crash, when the response is absent) and
returns the error unless the status is 404. It then calls
DeleteIdentityProvider and, on an error, returns suppressErrorOn404 of it.
The two SdkResult arguments are the results of the deactivate call and of
the delete call. -/
def resourceDeleteAnyIdp (active : Bool) (deact del : SdkResult) : Outcome Unit :=
  let deleteStep : Outcome Unit :=
    match del.err with
    | some e => suppressErrorOn404 del.resp e
    | none => Outcome.ok ()
  if active then
    match deact.err with
    | some e =>
      match deact.resp with
      | none => Outcome.crash
      | some r => if r.statusCode ≠ 404 then Outcome.err e else deleteStep
    | none => deleteStep
  else
    deleteStep

/-- createIdp from okta/idp.go: calls CreateIdentityProvider, reads
response.StatusCode unconditionally (crash when the response is absent),
returns nil on a 404 (the source comment says a 404 is deliberately not
considered an error here), otherwise responseErr. -/
def createIdp (r : SdkResult) : Outcome Unit :=
  match r.resp with
  | none => Outcome.crash
  | some resp =>
    if resp.statusCode = 404 then Outcome.ok ()
    else responseErr (some resp) r.err

/-- updateIdp from okta/idp.go: same shape as createIdp, over the result of
UpdateIdentityProvider. -/
def updateIdp (r : SdkResult) : Outcome Unit :=
  match r.resp with
  | none => Outcome.crash
  | some resp =>
    if resp.statusCode = 404 then Outcome.ok ()
    else responseErr (some resp) r.err

/-- The API calls the status reconciler can issue. -/
inductive IdpApiCall where
  | deactivate : String → IdpApiCall
  | activate : String → IdpApiCall
deriving DecidableEq, Repr

/-- setIdpStatus from okta/idp.go. Pure rendition returning the Go result
together with the list of API calls issued: nothing when status equals
desiredStatus; a deactivate call when the desired status is INACTIVE; an
activate call when it is ACTIVE; nothing in every other case (the source
falls through to return nil). callResult is the result of whichever
activate/deactivate call is issued. -/
def setIdpStatus (id status desiredStatus : String) (callResult : SdkResult) :
    Outcome Unit × List IdpApiCall :=
  if status ≠ desiredStatus then
    if desiredStatus = "INACTIVE" then
      (responseErr callResult.resp callResult.err, [IdpApiCall.deactivate id])
    else if desiredStatus = "ACTIVE" then
      (responseErr callResult.resp callResult.err, [IdpApiCall.activate id])
    else (Outcome.ok (), [])
  else (Outcome.ok (), [])

/-- getIdentityProviderExists from okta/idp.go: performs
GetIdentityProvider, reads resp.StatusCode unconditionally (crash when the
response is absent) and returns the pair (resp.StatusCode == 200, err). -/
def getIdentityProviderExists (r : SdkResult) : Outcome (Bool × Option String) :=
  match r.resp with
  | none => Outcome.crash
  | some resp => Outcome.ok (resp.statusCode == 200, r.err)

/-- IDPAction: a single provisioning action (a wrapped string). -/
structure IDPAction where
  action : String
deriving DecidableEq, Repr

/-- IDPConditions: deprovisioned and suspended actions. The Go fields are
pointers but NewIdpProvisioning always populates both. -/
structure IDPConditions where
  deprovisioned : IDPAction
  suspended : IDPAction
deriving DecidableEq, Repr

/-- IDPProvisioning: provisioning policy. ProfileMaster exists on the struct
(the read handler consults it) but NewIdpProvisioning leaves it at the Go
zero value false. -/
structure IDPProvisioning where
  action : String
  conditions : IDPConditions
  groups : IDPAction
  profileMaster : Bool := false
deriving DecidableEq, Repr

/-- Included: the group-include list of an account-link filter. The Go field
is named Include. -/
structure Included where
  includedGroups : List String
deriving DecidableEq, Repr

/-- Filter: account-link filter wrapping the group include list. -/
structure Filter where
  groups : Included
deriving DecidableEq, Repr

/-- AccountLink: account-link policy; Filter is a nullable pointer in Go,
hence an Option here. -/
structure AccountLink where
  action : String
  filter : Option Filter
deriving DecidableEq, Repr

/-- UsernameTemplate (okta.ApplicationCredentialsUsernameTemplate). -/
structure UsernameTemplate where
  template : String
deriving DecidableEq, Repr

/-- OIDCSubject: subject-matching policy. -/
structure OIDCSubject where
  matchType : String
  userNameTemplate : UsernameTemplate
deriving DecidableEq, Repr

/-- OIDCPolicy. AccountLink is a nullable pointer in Go (the read handler
nil-checks it), hence an Option. -/
structure OIDCPolicy where
  accountLink : Option AccountLink
  maxClockSkew : Int
  provisioning : IDPProvisioning
  subject : OIDCSubject
deriving DecidableEq, Repr

/-- OIDCClient: OAuth client credentials. -/
structure OIDCClient where
  clientID : String
  clientSecret : String
deriving DecidableEq, Repr

/-- OIDCCredentials wraps the client credentials. -/
structure OIDCCredentials where
  client : OIDCClient
deriving DecidableEq, Repr

/-- OIDCProtocol: scopes, protocol type and credentials. The Go field for
the protocol type is named Type. -/
structure OIDCProtocol where
  scopes : List String
  typ : String
  credentials : OIDCCredentials
deriving DecidableEq, Repr

/-- OIDCIdentityProvider: the social-IdP payload. Policy and Protocol are
pointers in Go (buildSocialIdp takes their address with a literal), so a
zero-value provider has both nil: they are Options here. The Go field for
the provider type is named Type. -/
structure OIDCIdentityProvider where
  id : String := ""
  name : String := ""
  typ : String := ""
  status : String := ""
  issuerMode : String := ""
  policy : Option OIDCPolicy := none
  protocol : Option OIDCProtocol := none
deriving DecidableEq, Repr

/-- The Go zero value OIDCIdentityProvider given by the composite literal
with no fields, as allocated at the top of resourceSocialIdpRead. -/
def zeroOIDCIdentityProvider : OIDCIdentityProvider := {}

/-- The flat declared configuration a ResourceData carries for the
social-IdP resource: one field per schema key read by the embedded code,
plus the resource id. -/
structure IdpConfig where
  id : String
  name : String
  typ : String
  status : String
  issuerMode : String
  maxClockSkew : Int
  subjectMatchType : String
  usernameTemplate : String
  provisioningAction : String
  deprovisionedAction : String
  suspendedAction : String
  groupsAction : String
  profileMaster : Bool
  accountLinkAction : String
  accountLinkGroupInclude : List String
  scopes : List String
  protocolType : String
  clientId : String
  clientSecret : String
  requestSignatureAlgorithm : String
  requestSignatureScope : String
  responseSignatureAlgorithm : String
  responseSignatureScope : String
deriving DecidableEq, Repr

/-- Modelled from the spec: convertInterfaceToStringSet converts the host
framework's set representation to a string slice. The model already carries
the set as a list of strings, over which the conversion is the identity.
(The helper is part of the repository but outside the embedded source
files.) -/
def convertInterfaceToStringSet (s : List String) : List String := s

/-- NewIdpProvisioning from okta/idp.go: assembles the provisioning policy
from the provisioning_action, deprovisioned_action, suspended_action and
groups_action configuration fields. -/
def NewIdpProvisioning (d : IdpConfig) : IDPProvisioning :=
  { action := d.provisioningAction
    conditions :=
      { deprovisioned := { action := d.deprovisionedAction }
        suspended := { action := d.suspendedAction } }
    groups := { action := d.groupsAction } }

/-- NewAccountLink from okta/idp.go: the filter is built only when the
account_link_group_include set is non-empty; the action is copied from
account_link_action. -/
def NewAccountLink (d : IdpConfig) : AccountLink :=
  let link := convertInterfaceToStringSet d.accountLinkGroupInclude
  { action := d.accountLinkAction
    filter :=
      if link.length > 0 then
        some { groups := { includedGroups := link } }
      else none }

/-- IDPSignature wraps a Signature; Signature holds algorithm and scope. -/
structure Signature where
  algorithm : String
  scope : String
deriving DecidableEq, Repr

/-- IDPSignature: the request/response signature object. -/
structure IDPSignature where
  signature : Signature
deriving DecidableEq, Repr

/-- The two keys NewSignature is called with (NewAlgorithms passes the
strings "request" and "response"; the Go code derives the schema keys by
formatting key_signature_scope and key_signature_algorithm). -/
inductive SigKey where
  | request
  | response
deriving DecidableEq, Repr

/-- The key_signature_scope configuration field selected by a key. -/
def sigScopeField (d : IdpConfig) : SigKey → String
  | SigKey.request => d.requestSignatureScope
  | SigKey.response => d.responseSignatureScope

/-- The key_signature_algorithm configuration field selected by a key. -/
def sigAlgorithmField (d : IdpConfig) : SigKey → String
  | SigKey.request => d.requestSignatureAlgorithm
  | SigKey.response => d.responseSignatureAlgorithm

/-- NewSignature from okta/idp.go: returns nil when the key's
signature-scope field is empty, otherwise an IDPSignature carrying the
key's algorithm field and the scope. -/
def NewSignature (d : IdpConfig) (key : SigKey) : Option IDPSignature :=
  let scope := sigScopeField d key
  if scope = "" then none
  else some { signature := { algorithm := sigAlgorithmField d key, scope := scope } }

/-- Algorithms: request and response signature configuration. -/
structure Algorithms where
  request : Option IDPSignature
  response : Option IDPSignature
deriving DecidableEq, Repr

/-- NewAlgorithms from okta/idp.go. -/
def NewAlgorithms (d : IdpConfig) : Algorithms :=
  { request := NewSignature d SigKey.request
    response := NewSignature d SigKey.response }

/-- buildSocialIdp from okta/resource_social_idp.go: assembles the nested
OIDCIdentityProvider payload from the flat configuration. ID and Status are
left at their zero values; the service assigns them. -/
def buildSocialIdp (d : IdpConfig) : OIDCIdentityProvider :=
  { name := d.name
    typ := d.typ
    policy := some
      { accountLink := some (NewAccountLink d)
        maxClockSkew := d.maxClockSkew
        provisioning := NewIdpProvisioning d
        subject :=
          { matchType := d.subjectMatchType
            userNameTemplate := { template := d.usernameTemplate } } }
    protocol := some
      { scopes := convertInterfaceToStringSet d.scopes
        typ := d.protocolType
        credentials :=
          { client :=
              { clientID := d.clientId
                clientSecret := d.clientSecret } } } }

/-- fetchIdp from okta/idp.go. The SdkResult is the result of
GetIdentityProvider; idp is the caller's payload object (the Go interface
argument) and remote is the provider object the SDK unmarshals into it on a
successful (2xx) fetch (modelled from the spec: the SDK populates the
passed object from the response body; on a not-found there is no remote
object and nothing is unmarshalled).

The Go source reads response.StatusCode before checking err, so an absent
response is a nil-pointer dereference (crash). In the 404 branch the source
assigns idp = nil and returns nil; that assignment rebinds the callee's
local interface parameter only, so the caller-visible value — returned
explicitly by this model — is the unchanged idp argument. -/
def fetchIdp (r : SdkResult) (idp remote : OIDCIdentityProvider) :
    Outcome OIDCIdentityProvider :=
  match r.resp with
  | none => Outcome.crash
  | some resp =>
    if resp.statusCode = 404 then Outcome.ok idp
    else
      match responseErr (some resp) r.err with
      | Outcome.ok _ => Outcome.ok remote
      | Outcome.err e => Outcome.err e
      | Outcome.crash => Outcome.crash

/-- The d.Set calls of resourceSocialIdpRead, given the fetched provider
with its policy and protocol already dereferenced. The source passes the
IDPAction structs of Conditions.Deprovisioned and Conditions.Suspended, and
the AccountLink.Filter struct, to d.Set; the model records the strings they
carry. issuer_mode is set only when non-empty, and the account-link fields
only when AccountLink is non-nil, exactly as the source nil-checks. -/
def setSocialIdpFields (d : IdpConfig) (idp : OIDCIdentityProvider)
    (pol : OIDCPolicy) (proto : OIDCProtocol) : IdpConfig :=
  let d1 : IdpConfig :=
    { d with
      name := idp.name
      maxClockSkew := pol.maxClockSkew
      provisioningAction := pol.provisioning.action
      deprovisionedAction := pol.provisioning.conditions.deprovisioned.action
      suspendedAction := pol.provisioning.conditions.suspended.action
      profileMaster := pol.provisioning.profileMaster
      groupsAction := pol.provisioning.groups.action
      subjectMatchType := pol.subject.matchType
      usernameTemplate := pol.subject.userNameTemplate.template
      clientId := proto.credentials.client.clientID
      clientSecret := proto.credentials.client.clientSecret
      scopes := proto.scopes }
  let d2 : IdpConfig :=
    if idp.issuerMode ≠ "" then { d1 with issuerMode := idp.issuerMode } else d1
  match pol.accountLink with
  | some al =>
    { d2 with
      accountLinkAction := al.action
      accountLinkGroupInclude :=
        match al.filter with
        | some f => f.groups.includedGroups
        | none => [] }
  | none => d2

/-- resourceSocialIdpRead from okta/resource_social_idp.go. Allocates a
zero-value OIDCIdentityProvider, fetches into it, and on a nil error from
fetchIdp dereferences idp.Policy and idp.Protocol to populate the
configuration. A nil Policy or Protocol — in particular the zero-value
object left by a 404 fetch — makes those dereferences crash. The handler
never calls d.SetId, so the resource id is never cleared. -/
def resourceSocialIdpRead (d : IdpConfig) (r : SdkResult)
    (remote : OIDCIdentityProvider) : Outcome IdpConfig :=
  match fetchIdp r zeroOIDCIdentityProvider remote with
  | Outcome.crash => Outcome.crash
  | Outcome.err e => Outcome.err e
  | Outcome.ok idp =>
    match idp.policy, idp.protocol with
    | some pol, some proto => Outcome.ok (setSocialIdpFields d idp pol proto)
    | _, _ => Outcome.crash

/-- The externally observable steps of the create handler, in the order
resourceSocialIdpCreate performs them. -/
inductive Step where
  | createCall
  | storeId
  | reconcileStatus
  | readBack
deriving DecidableEq, Repr

/-- The environment of one run of the create handler: the SDK results of
the three calls it can issue, plus what the service returns. assignedId and
assignedStatus model the ID and Status the SDK writes into the payload
object during a successful create (modelled from the spec: the create call
stores the returned identifier in the payload); remote is the provider the
final read-back fetch unmarshals. -/
structure CreateEnv where
  createResult : SdkResult
  assignedId : String
  assignedStatus : String
  statusCallResult : SdkResult
  readResult : SdkResult
  remote : OIDCIdentityProvider
deriving DecidableEq, Repr

/-- resourceSocialIdpCreate from okta/resource_social_idp.go: builds the
payload, calls createIdp and returns its error on failure; otherwise stores
the SDK-assigned identifier with d.SetId, reconciles the payload's status
against the declared status field via setIdpStatus and returns its error on
failure; otherwise delegates to resourceSocialIdpRead. The returned list
records the steps performed, in order. -/
def resourceSocialIdpCreate (d : IdpConfig) (env : CreateEnv) :
    Outcome IdpConfig × List Step :=
  match createIdp env.createResult with
  | Outcome.crash => (Outcome.crash, [Step.createCall])
  | Outcome.err e => (Outcome.err e, [Step.createCall])
  | Outcome.ok _ =>
    let d1 : IdpConfig := { d with id := env.assignedId }
    match (setIdpStatus env.assignedId env.assignedStatus d.status env.statusCallResult).1 with
    | Outcome.crash => (Outcome.crash, [Step.createCall, Step.storeId, Step.reconcileStatus])
    | Outcome.err e => (Outcome.err e, [Step.createCall, Step.storeId, Step.reconcileStatus])
    | Outcome.ok _ =>
      (resourceSocialIdpRead d1 env.readResult env.remote,
       [Step.createCall, Step.storeId, Step.reconcileStatus, Step.readBack])

/-- A sample declared configuration used to instantiate theorems at
concrete inputs. -/
def sampleConfig : IdpConfig :=
  { id := "0oa62bfdiumsUndnZ0h7"
    name := "Google"
    typ := "GOOGLE"
    status := "ACTIVE"
    issuerMode := "ORG_URL"
    maxClockSkew := 0
    subjectMatchType := "USERNAME"
    usernameTemplate := "idpuser.email"
    provisioningAction := "AUTO"
    deprovisionedAction := "NONE"
    suspendedAction := "NONE"
    groupsAction := "NONE"
    profileMaster := false
    accountLinkAction := "AUTO"
    accountLinkGroupInclude := []
    scopes := ["profile", "email", "openid"]
    protocolType := "OIDC"
    clientId := "client-id-123"
    clientSecret := "client-secret-456"
    requestSignatureAlgorithm := "SHA-256"
    requestSignatureScope := "REQUEST"
    responseSignatureAlgorithm := "SHA-256"
    responseSignatureScope := "" }

/-- sampleConfig with a non-empty account_link_group_include set. -/
def sampleConfigWithGroups : IdpConfig :=
  { sampleConfig with accountLinkGroupInclude := ["everyone"] }

/-- A fully populated remote provider object, as the SDK unmarshals it from
a successful fetch. -/
def sampleRemote : OIDCIdentityProvider :=
  { id := "0oa62bfdiumsUndnZ0h7"
    name := "Google"
    typ := "GOOGLE"
    status := "ACTIVE"
    issuerMode := "ORG_URL"
    policy := some
      { accountLink := some { action := "AUTO", filter := none }
        maxClockSkew := 0
        provisioning :=
          { action := "AUTO"
            conditions :=
              { deprovisioned := { action := "NONE" }
                suspended := { action := "NONE" } }
            groups := { action := "NONE" }
            profileMaster := false }
        subject :=
          { matchType := "USERNAME"
            userNameTemplate := { template := "idpuser.email" } } }
    protocol := some
      { scopes := ["profile", "email", "openid"]
        typ := "OIDC"
        credentials :=
          { client :=
              { clientID := "client-id-123"
                clientSecret := "client-secret-456" } } } }

/-- A create-handler environment in which every SDK call succeeds. -/
def sampleCreateEnv : CreateEnv :=
  { createResult := ⟨some ⟨200⟩, none⟩
    assignedId := "0oaNew"
    assignedStatus := "ACTIVE"
    statusCallResult := ⟨some ⟨200⟩, none⟩
    readResult := ⟨some ⟨200⟩, none⟩
    remote := sampleRemote }

/-- Claim C1: deleting an active IdP whose remote object is already gone
succeeds without error — an error carried by a 404 response from the
deactivate call and an error carried by a 404 response from the delete call
are both tolerated — while an error carried by a non-404 response at either
step is returned to the caller. -/
theorem delete_tolerates_404_at_both_steps (e1 e2 : String) (r1 r2 : Response)
    (del : SdkResult) :
    (resourceDeleteAnyIdp true ⟨some ⟨404⟩, some e1⟩ ⟨some ⟨404⟩, some e2⟩ =
      Outcome.ok ()) ∧
    (r1.statusCode ≠ 404 →
      resourceDeleteAnyIdp true ⟨some r1, some e1⟩ del = Outcome.err e1) ∧
    (r2.statusCode ≠ 404 →
      resourceDeleteAnyIdp true ⟨some ⟨404⟩, some e1⟩ ⟨some r2, some e2⟩ =
        Outcome.err e2) := by
  refine ⟨?_, ?_, ?_⟩
  · simp [resourceDeleteAnyIdp, suppressErrorOn404]
  · intro h
    simp [resourceDeleteAnyIdp, h]
  · intro h
    simp [resourceDeleteAnyIdp, suppressErrorOn404, h]

/-- Claim C1 witness: both steps answered 404 gives success; a 500 at the
deactivate step returns that error. -/
theorem delete_tolerates_404_witness :
    (Response.statusCode ⟨500⟩ ≠ 404) ∧
    resourceDeleteAnyIdp true ⟨some ⟨404⟩, some "E1"⟩ ⟨some ⟨404⟩, some "E2"⟩ =
      Outcome.ok () ∧
    resourceDeleteAnyIdp true ⟨some ⟨500⟩, some "E1"⟩ ⟨some ⟨404⟩, some "E2"⟩ =
      Outcome.err "E1" :=
  ⟨by decide,
   (delete_tolerates_404_at_both_steps "E1" "E2" ⟨500⟩ ⟨500⟩ ⟨some ⟨404⟩, some "E2"⟩).1,
   (delete_tolerates_404_at_both_steps "E1" "E2" ⟨500⟩ ⟨500⟩ ⟨some ⟨404⟩, some "E2"⟩).2.1
     (by decide)⟩

/-- Claim C2 (code-bug witness): when the fetch answers HTTP 404, fetchIdp
returns no error but hands the caller its unchanged zero-value payload (the
idp = nil assignment rebinds only the callee's local parameter), and
resourceSocialIdpRead then dereferences the nil Policy pointer of that
zero-value payload and crashes — it produces no absence signal and never
clears the resource id. -/
theorem read_of_removed_object_crashes :
    fetchIdp ⟨some ⟨404⟩, some "E0000007"⟩ zeroOIDCIdentityProvider sampleRemote =
      Outcome.ok zeroOIDCIdentityProvider ∧
    resourceSocialIdpRead sampleConfig ⟨some ⟨404⟩, some "E0000007"⟩ sampleRemote =
      Outcome.crash :=
  ⟨rfl, rfl⟩

/-- Claim C3 counterexample: with current status ACTIVE and desired status
PENDING the two differ, yet setIdpStatus issues no API call — refuting the
claim that exactly one call is issued whenever the statuses differ. -/
theorem setIdpStatus_counterexample :
    ("ACTIVE" : String) ≠ "PENDING" ∧
    (setIdpStatus "0oa62bfdiumsUndnZ0h7" "ACTIVE" "PENDING" ⟨some ⟨200⟩, none⟩).2 = [] :=
  ⟨by decide, rfl⟩

/-- Claim C3 as amended: setIdpStatus issues no call when the desired
status equals the current one; when they differ it issues exactly one
deactivate call if the desired status is INACTIVE, exactly one activate
call if it is ACTIVE, and no call (returning nil) for any other desired
status. -/
theorem setIdpStatus_calls (id status desired : String) (r : SdkResult) :
    (status = desired → setIdpStatus id status desired r = (Outcome.ok (), [])) ∧
    (status ≠ desired → desired = "INACTIVE" →
      (setIdpStatus id status desired r).2 = [IdpApiCall.deactivate id]) ∧
    (status ≠ desired → desired = "ACTIVE" →
      (setIdpStatus id status desired r).2 = [IdpApiCall.activate id]) ∧
    (status ≠ desired → desired ≠ "INACTIVE" → desired ≠ "ACTIVE" →
      setIdpStatus id status desired r = (Outcome.ok (), [])) := by
  refine ⟨?_, ?_, ?_, ?_⟩
  · intro h
    simp [setIdpStatus, h]
  · intro h hd
    subst hd
    simp [setIdpStatus, h]
  · intro h hd
    subst hd
    simp [setIdpStatus, h]
  · intro h h1 h2
    simp [setIdpStatus, h, h1, h2]

/-- Claim C3 witness: reconciling ACTIVE towards INACTIVE issues exactly
the deactivate call. -/
theorem setIdpStatus_calls_witness :
    ("ACTIVE" : String) ≠ "INACTIVE" ∧
    (setIdpStatus "0oa1" "ACTIVE" "INACTIVE" ⟨some ⟨200⟩, none⟩).2 =
      [IdpApiCall.deactivate "0oa1"] :=
  ⟨by decide,
   (setIdpStatus_calls "0oa1" "ACTIVE" "INACTIVE" ⟨some ⟨200⟩, none⟩).2.1 (by decide) rfl⟩

/-- Claim C4 counterexample: a 404 error response to the create call and to
the update call is swallowed — both return nil — refuting the claim that
create and update propagate every error, including a 404, verbatim. -/
theorem create_update_404_counterexample :
    createIdp ⟨some ⟨404⟩, some "E0000007: Not found"⟩ = Outcome.ok () ∧
    updateIdp ⟨some ⟨404⟩, some "E0000007: Not found"⟩ = Outcome.ok () :=
  ⟨rfl, rfl⟩

/-- Claim C4 as amended: a 404 response is suppressed as benign absence in
the create and update operations too (as in delete, deactivate and read);
an error carried by any non-404 response is propagated verbatim by both. -/
theorem create_update_suppress_404 (oe : Option String) (e : String) (r : Response) :
    (createIdp ⟨some ⟨404⟩, oe⟩ = Outcome.ok ()) ∧
    (updateIdp ⟨some ⟨404⟩, oe⟩ = Outcome.ok ()) ∧
    (r.statusCode ≠ 404 → createIdp ⟨some r, some e⟩ = Outcome.err e) ∧
    (r.statusCode ≠ 404 → updateIdp ⟨some r, some e⟩ = Outcome.err e) := by
  refine ⟨?_, ?_, ?_, ?_⟩
  · simp [createIdp]
  · simp [updateIdp]
  · intro h
    simp [createIdp, responseErr, h]
  · intro h
    simp [updateIdp, responseErr, h]

/-- Claim C4 witness: a 404 is suppressed and a 500-carried error is
propagated, for both create and update. -/
theorem create_update_suppress_404_witness :
    (Response.statusCode ⟨500⟩ ≠ 404) ∧
    createIdp ⟨some ⟨404⟩, some "gone"⟩ = Outcome.ok () ∧
    createIdp ⟨some ⟨500⟩, some "boom"⟩ = Outcome.err "boom" ∧
    updateIdp ⟨some ⟨500⟩, some "boom"⟩ = Outcome.err "boom" :=
  ⟨by decide,
   (create_update_suppress_404 (some "gone") "boom" ⟨500⟩).1,
   (create_update_suppress_404 (some "gone") "boom" ⟨500⟩).2.2.1 (by decide),
   (create_update_suppress_404 (some "gone") "boom" ⟨500⟩).2.2.2 (by decide)⟩

/-- Claim C5: buildSocialIdp is a total pure function (its Lean type has no
error or effect channel) mapping each flat configuration field to its
specified nested position: name, type, max_clock_skew, subject_match_type,
username_template, the provisioning actions, the account-link settings,
scopes, protocol_type, client_id and client_secret. -/
theorem buildSocialIdp_field_mapping (d : IdpConfig) :
    ∃ pol proto,
      (buildSocialIdp d).policy = some pol ∧
      (buildSocialIdp d).protocol = some proto ∧
      (buildSocialIdp d).name = d.name ∧
      (buildSocialIdp d).typ = d.typ ∧
      pol.maxClockSkew = d.maxClockSkew ∧
      pol.subject.matchType = d.subjectMatchType ∧
      pol.subject.userNameTemplate.template = d.usernameTemplate ∧
      pol.provisioning.action = d.provisioningAction ∧
      pol.provisioning.conditions.deprovisioned.action = d.deprovisionedAction ∧
      pol.provisioning.conditions.suspended.action = d.suspendedAction ∧
      pol.provisioning.groups.action = d.groupsAction ∧
      pol.accountLink = some (NewAccountLink d) ∧
      proto.scopes = d.scopes ∧
      proto.typ = d.protocolType ∧
      proto.credentials.client.clientID = d.clientId ∧
      proto.credentials.client.clientSecret = d.clientSecret :=
  ⟨_, _, rfl, rfl, rfl, rfl, rfl, rfl, rfl, rfl, rfl, rfl, rfl, rfl, rfl, rfl, rfl, rfl⟩

/-- Claim C6: when the service responds at all, getIdentityProviderExists
returns true exactly when the response status is HTTP 200 (alongside the
SDK error, which it passes through). -/
theorem exists_true_iff_200 (r : SdkResult) (resp : Response)
    (h : r.resp = some resp) :
    ∃ b : Bool, getIdentityProviderExists r = Outcome.ok (b, r.err) ∧
      (b = true ↔ resp.statusCode = 200) := by
  refine ⟨resp.statusCode == 200, ?_, ?_⟩
  · simp [getIdentityProviderExists, h]
  · simp

/-- Claim C6 witness: a 200 response makes exists report true. -/
theorem exists_true_iff_200_witness :
    (SdkResult.mk (some ⟨200⟩) none).resp = some ⟨200⟩ ∧
    (∃ b : Bool, getIdentityProviderExists ⟨some ⟨200⟩, none⟩ = Outcome.ok (b, none) ∧
      (b = true ↔ Response.statusCode ⟨200⟩ = 200)) :=
  ⟨rfl, exists_true_iff_200 ⟨some ⟨200⟩, none⟩ ⟨200⟩ rfl⟩

/-- Claim C7: the create handler performs create, store-id, status
reconciliation and read-back in that order; a failing create returns its
error with no later step performed; a failing status reconciliation
returns its error with no read-back; when both succeed the handler stores
the assigned identifier as the resource id and delegates to the read
handler. -/
theorem socialIdpCreate_sequence (d : IdpConfig) (env : CreateEnv) :
    (∀ e, createIdp env.createResult = Outcome.err e →
      resourceSocialIdpCreate d env = (Outcome.err e, [Step.createCall])) ∧
    (createIdp env.createResult = Outcome.ok () →
      (∀ e, (setIdpStatus env.assignedId env.assignedStatus d.status
          env.statusCallResult).1 = Outcome.err e →
        resourceSocialIdpCreate d env =
          (Outcome.err e, [Step.createCall, Step.storeId, Step.reconcileStatus])) ∧
      ((setIdpStatus env.assignedId env.assignedStatus d.status
          env.statusCallResult).1 = Outcome.ok () →
        resourceSocialIdpCreate d env =
          (resourceSocialIdpRead { d with id := env.assignedId } env.readResult env.remote,
            [Step.createCall, Step.storeId, Step.reconcileStatus, Step.readBack]))) := by
  refine ⟨?_, ?_⟩
  · intro e he
    simp [resourceSocialIdpCreate, he]
  · intro hc
    refine ⟨?_, ?_⟩
    · intro e he
      simp [resourceSocialIdpCreate, hc, he]
    · intro hs
      simp [resourceSocialIdpCreate, hc, hs]

/-- Claim C7 witness: with every SDK call succeeding, the create handler
performs all four steps in order and ends in the read-back. -/
theorem socialIdpCreate_sequence_witness :
    createIdp (SdkResult.mk (some ⟨200⟩) none) = Outcome.ok () ∧
    resourceSocialIdpCreate sampleConfig sampleCreateEnv =
      (resourceSocialIdpRead { sampleConfig with id := "0oaNew" }
          (SdkResult.mk (some ⟨200⟩) none) sampleRemote,
        [Step.createCall, Step.storeId, Step.reconcileStatus, Step.readBack]) :=
  ⟨rfl, ((socialIdpCreate_sequence sampleConfig sampleCreateEnv).2 rfl).2 rfl⟩

/-- Claim C8 (code-bug witness): when the SDK fails with no HTTP response
(resp = nil alongside an error), every embedded handler path that reads
resp.StatusCode crashes with a nil-pointer dereference instead of
returning the error: fetchIdp (hence read), the deactivate branch of
resourceDeleteAnyIdp, exists, create and update. -/
theorem nil_response_crashes_handlers :
    fetchIdp ⟨none, some "connection refused"⟩ zeroOIDCIdentityProvider sampleRemote =
      Outcome.crash ∧
    resourceSocialIdpRead sampleConfig ⟨none, some "connection refused"⟩ sampleRemote =
      Outcome.crash ∧
    resourceDeleteAnyIdp true ⟨none, some "connection refused"⟩ ⟨some ⟨204⟩, none⟩ =
      Outcome.crash ∧
    getIdentityProviderExists ⟨none, some "connection refused"⟩ = Outcome.crash ∧
    createIdp ⟨none, some "connection refused"⟩ = Outcome.crash ∧
    updateIdp ⟨none, some "connection refused"⟩ = Outcome.crash :=
  ⟨rfl, rfl, rfl, rfl, rfl, rfl⟩

/-- Claim C9: NewAccountLink yields a nil Filter exactly when the
account_link_group_include set is empty; when non-empty the filter's group
include list is that set; and the action always equals
account_link_action. -/
theorem NewAccountLink_spec (d : IdpConfig) :
    ((NewAccountLink d).filter = none ↔ d.accountLinkGroupInclude = []) ∧
    (d.accountLinkGroupInclude ≠ [] →
      (NewAccountLink d).filter =
        some { groups := { includedGroups := d.accountLinkGroupInclude } }) ∧
    (NewAccountLink d).action = d.accountLinkAction := by
  by_cases hl : d.accountLinkGroupInclude = []
  · refine ⟨?_, ?_, rfl⟩
    · simp [NewAccountLink, convertInterfaceToStringSet, hl]
    · intro h
      exact absurd hl h
  · refine ⟨?_, ?_, rfl⟩
    · simp [NewAccountLink, convertInterfaceToStringSet, hl, List.length_pos]
    · intro _
      simp [NewAccountLink, convertInterfaceToStringSet, List.length_pos, hl]

/-- Claim C9 witness: a one-element include set produces a filter carrying
exactly that set. -/
theorem NewAccountLink_spec_witness :
    sampleConfigWithGroups.accountLinkGroupInclude ≠ [] ∧
    (NewAccountLink sampleConfigWithGroups).filter =
      some { groups := { includedGroups := sampleConfigWithGroups.accountLinkGroupInclude } } :=
  ⟨by decide, (NewAccountLink_spec sampleConfigWithGroups).2.1 (by decide)⟩

/-- Claim C10: for each of the request and response keys, NewSignature
returns nil exactly when that key's signature-scope field is empty;
otherwise it returns a signature carrying that key's configured algorithm
and scope. -/
theorem NewSignature_spec (d : IdpConfig) (k : SigKey) :
    (NewSignature d k = none ↔ sigScopeField d k = "") ∧
    (sigScopeField d k ≠ "" →
      NewSignature d k =
        some { signature :=
          { algorithm := sigAlgorithmField d k, scope := sigScopeField d k } }) := by
  by_cases h : sigScopeField d k = ""
  · refine ⟨?_, ?_⟩
    · simp [NewSignature, h]
    · intro hne
      exact absurd h hne
  · refine ⟨?_, ?_⟩
    · simp [NewSignature, h]
    · intro _
      simp [NewSignature, h]

/-- Claim C10 witness: a configured request scope yields the request
signature object. -/
theorem NewSignature_spec_witness :
    sigScopeField sampleConfig SigKey.request ≠ "" ∧
    NewSignature sampleConfig SigKey.request =
      some { signature :=
        { algorithm := sigAlgorithmField sampleConfig SigKey.request
          scope := sigScopeField sampleConfig SigKey.request } } :=
  ⟨by decide, (NewSignature_spec sampleConfig SigKey.request).2 (by decide)⟩

end OktaIdp
